import Mathlib

/-!
Shallow embedding of `luigi/contrib/sqla.py` (SQLAlchemy RDBMS target for
luigi): the marker-table completion protocol (`SQLAlchemyTarget.touch`,
`SQLAlchemyTarget.exists`, `SQLAlchemyTarget.create_marker_table`) and the
chunked transactional loader (`CopyToTable.create_table`, `CopyToTable.run`).

Modelling conventions:
* The database is a pure value `DB`: an association list of data tables plus
  the marker table's rows and a flag recording whether the marker table has
  been created.
* Time is a `Nat` passed explicitly; a SQL timestamp value is `Option Nat`
  where `none` models SQL NULL.
* Backend failures that the code does not itself decide (a batch insert
  failing, the commit failing, a marker query failing) are injected through
  explicit oracle parameters (`batchFails`, `commitFails`, `existsFails`,
  `assertFails`).
* A `with engine.begin()` block is transactional: its effects are threaded
  as a pure state transformer, and on error the pre-block state is returned
  (rollback) together with the propagating error.
* The backend enforces the PRIMARY KEY on the marker table's `update_id`
  column: a statement whose result rows would contain duplicate
  `update_id`s fails with an integrity error.
-/

deriving instance DecidableEq for Except

namespace Sqla

/-- SQLAlchemy column types, as far as this file uses them
(`String(128)`, `DateTime`, `Integer` from the usage docstring). -/
inductive ColType where
  | integer : ColType
  | string : Nat → ColType
  | dateTime : ColType
deriving DecidableEq

/-- A bound column of a data table: its key (name) and, when known, its
type. `Column("id")` without a type is constructible in SQLAlchemy, hence
the `Option`. -/
structure SCol where
  key : String
  ctype : Option ColType
deriving DecidableEq

/-- One element of a user-supplied column spec tuple, as the Python code
sees it. The documented format for one spec is
`([name, type], kwargs_dict)`. Python lets a user supply other shapes,
e.g. `("id", None)`; the constructors cover the shapes the claims need. -/
inductive SpecItem where
  /-- an args list `[name, type]` -/
  | argsFull : String → ColType → SpecItem
  /-- an args list `[name]` with no type -/
  | argsName : String → SpecItem
  /-- a bare Python string element, e.g. the `"id"` of `("id", None)` -/
  | str : String → SpecItem
  /-- a kwargs dict `{...}` (contents irrelevant to the claims) -/
  | kwargs : SpecItem
  /-- the Python value `None` -/
  | pynone : SpecItem
deriving DecidableEq

/-- A column spec is one Python tuple, modelled as the list of its
elements, so that `len(c)` is `c.length`. -/
abbrev ColSpec : Type := List SpecItem

/-- A row dict produced by `dict(zip(column_keys, row))`: association of
column key to the row's string field. -/
abbrev InsRow : Type := List (String × String)

/-- One record of the marker table `table_updates`:
`(update_id, target_table, inserted)`, where `inserted` is `none` when the
backend stored SQL NULL. -/
structure MarkerRecord where
  update_id : String
  target_table : String
  inserted : Option Nat
deriving DecidableEq

/-- The state of one data table: its columns and its committed rows. -/
structure DataTable where
  cols : List SCol
  rows : List InsRow
deriving DecidableEq

/-- The whole database: data tables by name, whether the marker table
exists, and the marker table's rows. -/
structure DB where
  dataTables : List (String × DataTable)
  markerCreated : Bool
  marker : List MarkerRecord
deriving DecidableEq

/-- The empty database: no data tables, no marker table. -/
def dbEmpty : DB := ⟨[], false, []⟩

/-- All errors the embedded operations can raise.
`notImplemented` is the `NotImplementedError` of `create_table` (the
configuration error of the spec); `typeErr` a Python `TypeError` while
constructing columns; `attributeErr` the `AttributeError` from reading the
never-assigned `self.table_bound`; `insertErr`/`commitErr` backend failures
of a batch insert / the scope commit; `integrityErr` a primary-key
violation reported by the backend; `assertionFailed` the failure of
`assert self.exists()` at the end of `touch`. -/
inductive Err where
  | notImplemented : Err
  | typeErr : Err
  | attributeErr : Err
  | insertErr : Err
  | commitErr : Err
  | integrityErr : Err
  | assertionFailed : Err
deriving DecidableEq

/-- `con.dialect.has_table(con, name)` for data tables. -/
def hasTable (db : DB) (name : String) : Bool :=
  (db.dataTables.lookup name).isSome

/-- The columns of a data table (`[]` when the table does not exist). -/
def tableCols (db : DB) (name : String) : List SCol :=
  match db.dataTables.lookup name with
  | some tbl => tbl.cols
  | none => []

/-- The committed rows of a data table (`[]` when the table does not
exist). -/
def tableRows (db : DB) (name : String) : List InsRow :=
  match db.dataTables.lookup name with
  | some tbl => tbl.rows
  | none => []

/-! ## Marker table operations (`SQLAlchemyTarget`) -/

/-- The binding `self.marker_table_bound` produced by
`create_marker_table`: the only part of it the claims observe is the
client-side column default of `inserted`. The source declares
`Column("inserted", DateTime, default=datetime.datetime.now())`: the call
`now()` is evaluated once, when the `Table` object is constructed, and the
resulting constant is a client-side (not server-side) default, so it is
present only on a freshly constructed table object; a table obtained by
`metadata.reflect` carries no client-side default, and an insert through it
leaves the column SQL NULL. -/
structure MarkerHandle where
  insertedDefault : Option Nat
deriving DecidableEq

/-- `SQLAlchemyTarget.create_marker_table` at time `t`: create the marker
table if it does not exist (binding a table object whose `inserted` column
has the constant client-side default `now()` evaluated at construction
time `t`), else bind to it by reflection (no client-side default
survives). -/
def create_marker_table (t : Nat) (db : DB) : DB × MarkerHandle :=
  if db.markerCreated then (db, ⟨none⟩)
  else ({ db with markerCreated := true }, ⟨some t⟩)

/-- `SQLAlchemyTarget.exists`: run
`select([table]).where(table.c.update_id == update_id).limit(1)` and
report whether a row came back. The whole query sits in a
`try/except Exception` that turns any backend failure into `row = None`,
so a failed query reports `false`. `existsFails` injects such a failure.
(The method also calls `create_marker_table` when the table object is not
yet bound; that side effect creates at most an empty marker table and
never changes which records exist, so the query result is unaffected.) -/
def existsQ (db : DB) (uid : String) (existsFails : Bool) : Bool :=
  if existsFails then false
  else db.marker.any (fun r => r.update_id == uid)

/-- The rows the INSERT of `touch` commits:
`table.insert().values(update_id=..., target_table=...)` supplies no
`inserted` value, so the column receives the bound table object's
client-side default when there is one and SQL NULL otherwise. -/
def insertStmtRows (m : List MarkerRecord) (uid tgt : String)
    (dflt : Option Nat) : List MarkerRecord :=
  m ++ [⟨uid, tgt, dflt⟩]

/-- The rows the UPDATE of `touch` commits:
`table.update().values(update_id=..., target_table=..., inserted=now())`
carries no `.where(...)` clause, so it rewrites EVERY row of the marker
table, not just the row whose `update_id` matches. -/
def updateStmtRows (t : Nat) (uid tgt : String)
    (m : List MarkerRecord) : List MarkerRecord :=
  m.map (fun _ => ⟨uid, tgt, some t⟩)

/-- Whether a list of marker rows violates the PRIMARY KEY on
`update_id`. -/
def hasDupIds : List MarkerRecord → Bool
  | [] => false
  | r :: rs => rs.any (fun s => s.update_id == r.update_id) || hasDupIds rs

/-- Execute a marker-table statement whose committed result rows would be
`m`: the backend enforces the PRIMARY KEY on `update_id` and aborts the
statement with an integrity error when `m` contains duplicates. -/
def execMarkerStmt (m : List MarkerRecord) : Except Err (List MarkerRecord) :=
  if hasDupIds m then .error .integrityErr else .ok m

/-- `SQLAlchemyTarget.touch` at time `t` for `update_id = uid`,
`target_table = tgt`. Steps, mirroring the source: call
`create_marker_table`; inside one `engine.begin()` scope, evaluate
`self.exists()` (failure injectable via `existsFails`) and execute either
the INSERT (id absent) or the where-less UPDATE (id present); on error the
scope rolls back and the error propagates; after the scope commits, run
`assert self.exists()` (failure of that second query injectable via
`assertFails`), raising `assertionFailed` when it reports false. -/
def touch (t : Nat) (uid tgt : String) (existsFails assertFails : Bool)
    (db : DB) : DB × Option Err :=
  let cm := create_marker_table t db
  let db1 := cm.1
  let body : Except Err (List MarkerRecord) :=
    if existsQ db1 uid existsFails then
      execMarkerStmt (updateStmtRows t uid tgt db1.marker)
    else
      execMarkerStmt (insertStmtRows db1.marker uid tgt cm.2.insertedDefault)
  match body with
  | .error e => (db1, some e)
  | .ok m =>
    let db2 : DB := { db1 with marker := m }
    if existsQ db2 uid assertFails then (db2, none)
    else (db2, some .assertionFailed)

/-! ## Schema resolution (`CopyToTable.create_table`) -/

/-- The bound target table `self.table_bound`: its name and columns; the
loader reads the column keys `(c.key for c in self.table_bound.c)`. -/
structure TableHandle where
  name : String
  cols : List SCol
deriving DecidableEq

/-- `Column(*c[0], **c[1])` for one spec tuple `c`. The tuple must have
exactly two elements (the `needs_setup` check already enforces this on the
path that reaches here when `reflect` is false, but with `reflect = true`
any shape can arrive); `c[1]` must be a mapping — Python raises `TypeError`
for `**None` — and `c[0]` must unpack into arguments `Column` accepts:
`[name, type]` or `[name]`. Any other shape fails constructing the
column. -/
def buildColumn : ColSpec → Except Err SCol
  | [a, SpecItem.kwargs] =>
    match a with
    | SpecItem.argsFull n ty => .ok ⟨n, some ty⟩
    | SpecItem.argsName n => .ok ⟨n, none⟩
    | _ => .error .typeErr
  | _ => .error .typeErr

/-- `construct_sqla_columns`: build every column, propagating the first
construction failure (the Python list comprehension raises at the first
bad spec). -/
def construct_sqla_columns (specs : List ColSpec) : Except Err (List SCol) :=
  specs.mapM buildColumn

/-- The guard of `create_table`:
`(len(self.columns) == 0) or (False in [len(c) == 2 for c in self.columns])
if not self.reflect else False`. Note it only tests that each spec is a
two-element tuple — it cannot see whether a two-element spec actually
carries a type. -/
def needs_setup (reflect : Bool) (specs : List ColSpec) : Bool :=
  if reflect then false
  else specs.isEmpty || specs.any (fun c => c.length != 2)

/-- `CopyToTable.create_table`. When `needs_setup` holds, raise
`NotImplementedError` (the spec's `ConfigurationError`). Otherwise, inside
one scope and a `try/except Exception` that logs and swallows: if the
table does not exist, construct the columns and create it; if it exists,
bind to it by reflection. A swallowed exception (column construction
failing, or the backend refusing `CREATE TABLE` with an empty column list)
leaves `self.table_bound` unassigned, modelled as result `none`. -/
def create_table (reflect : Bool) (specs : List ColSpec) (tname : String)
    (db : DB) : DB × Except Err (Option TableHandle) :=
  if needs_setup reflect specs then (db, .error .notImplemented)
  else if hasTable db tname then
    (db, .ok (some ⟨tname, tableCols db tname⟩))
  else
    match construct_sqla_columns specs with
    | .error _ => (db, .ok none)
    | .ok cols =>
      if cols.isEmpty then (db, .ok none)
      else ({ db with dataTables := (tname, ⟨cols, []⟩) :: db.dataTables },
            .ok (some ⟨tname, cols⟩))

/-! ## Chunked loading (`CopyToTable.run`) -/

/-- The batching loop of `run`, driven by
`itertools.islice(rows, chunk_size)` over the row iterator: take the next
`n` rows as a batch until a slice comes back empty. `fuel` bounds the
recursion; `chunks` supplies `fuel = l.length`, which is enough because
each non-final step consumes at least one row. -/
def chunksAux (n : Nat) : Nat → List (List String) → List (List (List String))
  | 0, _ => []
  | _, [] => []
  | fuel + 1, x :: xs => ((x :: xs).take n) :: chunksAux n fuel ((x :: xs).drop n)

/-- The batches `run` executes: with `chunk_size = 0` the very first
`islice` is empty and the `while` loop never runs (no batches); otherwise
consecutive slices of at most `n` rows. -/
def chunks (n : Nat) (l : List (List String)) : List (List (List String)) :=
  match n with
  | 0 => []
  | _ + 1 => chunksAux n l.length l

/-- `dict(zip((c.key for c in self.table_bound.c), row))`: pair column
keys with row fields positionally; like Python's `zip`, truncate to the
shorter of the two sequences. -/
def mapRow (keys : List String) (row : List String) : InsRow :=
  keys.zip row

/-- The `while ins_rows:` loop body over the prepared batches:
`conn.execute(ins, ins_rows)` for each batch in order, all on the one
connection of the enclosing scope. `batchFails i` injects a backend
failure of the `i`-th batch insert; on failure the error propagates out
of the scope. On success the rows committed by the scope are the batches
in order. -/
def insertAll (batchFails : Nat → Bool) :
    Nat → List (List InsRow) → Except Err (List InsRow)
  | _, [] => .ok []
  | i, b :: bs =>
    if batchFails i then .error .insertErr
    else (insertAll batchFails (i + 1) bs).map (fun rest => b ++ rest)

/-- Append committed rows to a data table (no-op when the table does not
exist). -/
def appendRows (db : DB) (tname : String) (newRows : List InsRow) : DB :=
  { db with
      dataTables := db.dataTables.map (fun p =>
        if p.1 == tname then (p.1, ⟨p.2.cols, p.2.rows ++ newRows⟩) else p) }

/-- `CopyToTable.run` for a task with `table = tname`,
`columns = specs`, `reflect`, `chunk_size = chunkSize`, row source
`rowsL`, `update_id() = uid`, at time `t`. Steps, mirroring the source:
`create_table` (its own scope, committed independently); read
`self.table_bound` (`attributeErr` when `create_table` swallowed a failure
and never assigned it); inside ONE `engine.begin()` scope execute every
batch insert — a failing batch aborts and rolls back the whole scope, a
failing commit (`commitFails`) likewise; only after the scope commits call
`output.touch()`. -/
def run (reflect : Bool) (specs : List ColSpec) (tname : String)
    (chunkSize : Nat) (rowsL : List (List String)) (uid : String) (t : Nat)
    (batchFails : Nat → Bool) (commitFails existsFails assertFails : Bool)
    (db : DB) : DB × Option Err :=
  match create_table reflect specs tname db with
  | (db1, .error e) => (db1, some e)
  | (db1, .ok none) => (db1, some .attributeErr)
  | (db1, .ok (some h)) =>
    let keys := h.cols.map (fun c => c.key)
    let batches := (chunks chunkSize rowsL).map (fun b => b.map (mapRow keys))
    match insertAll batchFails 0 batches with
    | .error e => (db1, some e)
    | .ok flat =>
      if commitFails then (db1, some .commitErr)
      else touch t uid tname existsFails assertFails (appendRows db1 tname flat)

/-! ## Theorems -/

/-- C3: for every `updateId`, when the marker-table query issued by
`exists` fails with a backend error the method returns `false` instead of
propagating the error, and it returns `true` exactly when the query
succeeds and at least one marker row carries that `updateId`. -/
theorem exists_swallows_query_failure (db : DB) (uid : String) :
    existsQ db uid true = false
    ∧ ∀ qFails : Bool, (existsQ db uid qFails = true ↔
        qFails = false ∧ ∃ r ∈ db.marker, r.update_id = uid) := by
  refine ⟨rfl, ?_⟩
  intro q
  cases q
  · simp [existsQ, List.any_eq_true]
  · simp [existsQ]

/-- C4: `touch` never returns normally while `exists(updateId)` reports
false: after its transaction commits it re-runs the `exists` query
(`assert self.exists()`), and a normal return forces that query to have
reported true — and, when that final query did not itself fail, a marker
row with this `updateId` really is present. -/
theorem touch_asserts_exists (t : Nat) (uid tgt : String) (ef af : Bool)
    (db db' : DB) (h : touch t uid tgt ef af db = (db', none)) :
    existsQ db' uid af = true
    ∧ (af = false → ∃ r ∈ db'.marker, r.update_id = uid) := by
  simp only [touch] at h
  split at h
  · simp [Prod.ext_iff] at h
  · split at h
    · rw [Prod.mk.injEq] at h
      obtain ⟨h1, -⟩ := h
      subst h1
      constructor
      · assumption
      · intro haf
        subst haf
        rename_i hex
        simpa [existsQ, List.any_eq_true] using hex
    · simp [Prod.ext_iff] at h

/-- Witness for C4 at a concrete input: touching a fresh database
succeeds, and afterwards `exists` is true and the record is present. -/
theorem touch_asserts_exists_witness :
    existsQ (touch 0 "a" "tt" false false dbEmpty).1 "a" false = true
    ∧ (false = false →
        ∃ r ∈ (touch 0 "a" "tt" false false dbEmpty).1.marker,
          r.update_id = "a") :=
  touch_asserts_exists 0 "a" "tt" false false dbEmpty
    (touch 0 "a" "tt" false false dbEmpty).1 (by decide)

/-- Auxiliary: with positive chunk size and enough fuel, concatenating the
batches gives back the input rows in order. -/
theorem chunksAux_join (n : Nat) (hn : 0 < n) :
    ∀ (fuel : Nat) (l : List (List String)), l.length ≤ fuel →
      (chunksAux n fuel l).flatten = l := by
  intro fuel
  induction fuel with
  | zero =>
    intro l hl
    have hnil : l = [] := List.eq_nil_of_length_eq_zero (Nat.le_zero.mp hl)
    subst hnil
    rfl
  | succ f ih =>
    intro l hl
    match l with
    | [] => rfl
    | x :: xs =>
      simp only [chunksAux, List.flatten_cons]
      rw [ih ((x :: xs).drop n) ?_, List.take_append_drop]
      rw [List.length_drop]
      simp only [List.length_cons] at hl ⊢
      omega

/-- Auxiliary: every batch produced by the loop has at most `n` rows. -/
theorem chunksAux_batch_le (n : Nat) :
    ∀ (fuel : Nat) (l : List (List String)) (b : List (List String)),
      b ∈ chunksAux n fuel l → b.length ≤ n := by
  intro fuel
  induction fuel with
  | zero =>
    intro l b hb
    simp [chunksAux] at hb
  | succ f ih =>
    intro l b hb
    match l with
    | [] => simp [chunksAux] at hb
    | x :: xs =>
      simp only [chunksAux, List.mem_cons] at hb
      rcases hb with rfl | hb
      · exact List.length_take_le n (x :: xs)
      · exact ih _ _ hb

/-- The five-row input of the chunk-partition test. -/
def fiveRows : List (List String) := [["r1"], ["r2"], ["r3"], ["r4"], ["r5"]]

/-- C5: for every lazy row source, the loader's batching groups rows into
batches of at most `chunkSize` rows, preserving input order within and
across batches with no row dropped or duplicated (the concatenation of the
batches is exactly the input); in particular `chunkSize = 2` over 5 input
rows yields batches of sizes `[2, 2, 1]` in the original row order. -/
theorem chunks_partition (n : Nat) (l : List (List String)) (hn : 0 < n) :
    ((∀ b ∈ chunks n l, b.length ≤ n) ∧ (chunks n l).flatten = l)
    ∧ ((chunks 2 fiveRows).map List.length = [2, 2, 1]
        ∧ (chunks 2 fiveRows).flatten = fiveRows) := by
  refine ⟨⟨?_, ?_⟩, by decide, by decide⟩
  · intro b hb
    match n, hn with
    | m + 1, _ =>
      exact chunksAux_batch_le (m + 1) l.length l b hb
  · match n, hn with
    | m + 1, _ =>
      exact chunksAux_join (m + 1) (Nat.succ_pos m) l.length l (Nat.le_refl _)

/-- Witness for C5 at the concrete five-row input with chunk size 2. -/
theorem chunks_partition_witness :
    ((∀ b ∈ chunks 2 fiveRows, b.length ≤ 2)
        ∧ (chunks 2 fiveRows).flatten = fiveRows)
    ∧ ((chunks 2 fiveRows).map List.length = [2, 2, 1]
        ∧ (chunks 2 fiveRows).flatten = fiveRows) :=
  chunks_partition 2 fiveRows (by decide)

/-- Auxiliary: if some batch within range has a failing insert, the whole
loop aborts with the insert error. -/
theorem insertAll_error (bf : Nat → Bool) :
    ∀ (bs : List (List InsRow)) (i : Nat),
      (∃ j, j < bs.length ∧ bf (i + j) = true) →
      insertAll bf i bs = .error .insertErr := by
  intro bs
  induction bs with
  | nil =>
    intro i hex
    obtain ⟨j, hj, -⟩ := hex
    simp at hj
  | cons b bs ih =>
    intro i hex
    obtain ⟨j, hj, hf⟩ := hex
    by_cases hbi : bf i = true
    · simp [insertAll, hbi]
    · have hj0 : j ≠ 0 := by
        rintro rfl
        exact hbi (by simpa using hf)
      obtain ⟨j', rfl⟩ := Nat.exists_eq_succ_of_ne_zero hj0
      simp only [insertAll, hbi, if_false, Bool.false_eq_true]
      rw [ih (i + 1) ⟨j', by simpa using Nat.lt_of_succ_lt_succ (by simpa using hj),
        by rw [show i + 1 + j' = i + (j' + 1) by omega]; exact hf⟩]
      rfl

/-- Auxiliary: `create_table` never touches the marker table and never
adds rows to the target table (it at most creates the table empty). -/
theorem create_table_frame (r : Bool) (specs : List ColSpec)
    (tname : String) (db : DB) :
    ((create_table r specs tname db).1).marker = db.marker
    ∧ ((create_table r specs tname db).1).markerCreated = db.markerCreated
    ∧ tableRows (create_table r specs tname db).1 tname = tableRows db tname := by
  unfold create_table
  split
  · exact ⟨rfl, rfl, rfl⟩
  · split
    · exact ⟨rfl, rfl, rfl⟩
    · rename_i hht
      have hnone : db.dataTables.lookup tname = none := by
        rcases hcase : db.dataTables.lookup tname with - | v
        · rfl
        · rw [hasTable, hcase] at hht
          simp at hht
      split
      · exact ⟨rfl, rfl, rfl⟩
      · split
        · exact ⟨rfl, rfl, rfl⟩
        · refine ⟨rfl, rfl, ?_⟩
          simp [tableRows, List.lookup, hnone]

/-- C1: if any batch insert or the final commit fails during a run, the
single transactional scope shared by all batches rolls back entirely:
afterwards `run` has reported an error, the target table holds exactly the
rows it held before, the marker table was never touched (neither created
nor written), and `exists(updateId)` remains false when it was false. -/
theorem run_all_or_nothing (reflect : Bool) (specs : List ColSpec)
    (tname : String) (chunkSize : Nat) (rowsL : List (List String))
    (uid : String) (t : Nat) (batchFails : Nat → Bool)
    (commitFails existsFails assertFails : Bool) (db db' : DB)
    (eo : Option Err)
    (hrun : run reflect specs tname chunkSize rowsL uid t batchFails
      commitFails existsFails assertFails db = (db', eo))
    (hfail : (∃ i, i < (chunks chunkSize rowsL).length ∧ batchFails i = true)
      ∨ commitFails = true) :
    eo.isSome = true
    ∧ tableRows db' tname = tableRows db tname
    ∧ db'.marker = db.marker
    ∧ db'.markerCreated = db.markerCreated
    ∧ (existsQ db uid false = false → existsQ db' uid false = false) := by
  have hframe := create_table_frame reflect specs tname db
  unfold run at hrun
  rcases hct : create_table reflect specs tname db with ⟨db1, res⟩
  rw [hct] at hrun hframe
  have finish : db' = db1 → eo.isSome = true →
      eo.isSome = true
      ∧ tableRows db' tname = tableRows db tname
      ∧ db'.marker = db.marker
      ∧ db'.markerCreated = db.markerCreated
      ∧ (existsQ db uid false = false → existsQ db' uid false = false) := by
    rintro rfl hs
    refine ⟨hs, hframe.2.2, hframe.1, hframe.2.1, ?_⟩
    intro hfalse
    have hm : db'.marker = db.marker := hframe.1
    simpa [existsQ, hm] using hfalse
  match res with
  | .error e =>
    rw [Prod.mk.injEq] at hrun
    exact finish hrun.1.symm (by rw [← hrun.2]; rfl)
  | .ok none =>
    rw [Prod.mk.injEq] at hrun
    exact finish hrun.1.symm (by rw [← hrun.2]; rfl)
  | .ok (some h) =>
    dsimp only at hrun
    rcases hins : insertAll batchFails 0
        ((chunks chunkSize rowsL).map
          (fun b => b.map (mapRow (h.cols.map (fun c => c.key))))) with e | flat
    · rw [hins] at hrun
      rw [Prod.mk.injEq] at hrun
      exact finish hrun.1.symm (by rw [← hrun.2]; rfl)
    · have hcf : commitFails = true := by
        rcases hfail with ⟨i, hi, hbi⟩ | hc
        · exfalso
          have herr := insertAll_error batchFails
            ((chunks chunkSize rowsL).map
              (fun b => b.map (mapRow (h.cols.map (fun c => c.key))))) 0
            ⟨i, by simpa using hi, by simpa using hbi⟩
          rw [herr] at hins
          cases hins
        · exact hc
      rw [hins, hcf] at hrun
      simp only [if_true] at hrun
      rw [Prod.mk.injEq] at hrun
      exact finish hrun.1.symm (by rw [← hrun.2]; rfl)

/-- Well-formed column specs for a two-column table `(id, name)`, in the
format the source documents. -/
def specs2 : List ColSpec :=
  [[SpecItem.argsFull "id" ColType.integer, SpecItem.kwargs],
   [SpecItem.argsFull "name" (ColType.string 64), SpecItem.kwargs]]

/-- Two well-shaped input rows. -/
def twoRows : List (List String) := [["1", "a"], ["2", "b"]]

/-- Witness for C1: with chunk size 1 over two rows and the second batch
insert failing, the run reports an error and the fresh database keeps no
rows, no marker record, and a false `exists`. -/
theorem run_all_or_nothing_witness :
    ((run false specs2 "t" 1 twoRows "u" 0 (fun i => i == 1) false false
        false dbEmpty).2).isSome = true
    ∧ tableRows (run false specs2 "t" 1 twoRows "u" 0 (fun i => i == 1)
        false false false dbEmpty).1 "t" = tableRows dbEmpty "t"
    ∧ ((run false specs2 "t" 1 twoRows "u" 0 (fun i => i == 1) false false
        false dbEmpty).1).marker = dbEmpty.marker
    ∧ ((run false specs2 "t" 1 twoRows "u" 0 (fun i => i == 1) false false
        false dbEmpty).1).markerCreated = dbEmpty.markerCreated
    ∧ (existsQ dbEmpty "u" false = false →
        existsQ (run false specs2 "t" 1 twoRows "u" 0 (fun i => i == 1)
          false false false dbEmpty).1 "u" false = false) :=
  run_all_or_nothing false specs2 "t" 1 twoRows "u" 0 (fun i => i == 1)
    false false false dbEmpty
    (run false specs2 "t" 1 twoRows "u" 0 (fun i => i == 1) false false
      false dbEmpty).1
    (run false specs2 "t" 1 twoRows "u" 0 (fun i => i == 1) false false
      false dbEmpty).2
    rfl (Or.inl ⟨1, by decide, rfl⟩)

/-- C8: schema resolution is idempotent. If `create_table` bound a handle
(`.ok (some h)`), then resolving again from the resulting database yields
the very same handle with the database unchanged and no error; and when
the table already existed beforehand, the first call itself changed
nothing (it bound to the existing table by reflection instead of
re-creating it). -/
theorem create_table_idempotent (r : Bool) (specs : List ColSpec)
    (tname : String) (db db1 : DB) (h : TableHandle)
    (hok : create_table r specs tname db = (db1, .ok (some h))) :
    create_table r specs tname db1 = (db1, .ok (some h))
    ∧ (hasTable db tname = true →
        db1 = db ∧ h = ⟨tname, tableCols db tname⟩) := by
  unfold create_table at hok
  split at hok
  · simp [Prod.ext_iff] at hok
  · rename_i hns
    split at hok
    · rename_i hht
      rw [Prod.mk.injEq] at hok
      obtain ⟨hdb, hh⟩ := hok
      subst hdb
      rw [Except.ok.injEq, Option.some.injEq] at hh
      subst hh
      refine ⟨?_, fun _ => ⟨rfl, rfl⟩⟩
      unfold create_table
      rw [if_neg hns, if_pos hht]
    · rename_i hht
      split at hok
      · simp [Prod.ext_iff] at hok
      · rename_i cols hcols
        split at hok
        · simp [Prod.ext_iff] at hok
        · rename_i hne
          rw [Prod.mk.injEq] at hok
          obtain ⟨hdb, hh⟩ := hok
          rw [Except.ok.injEq, Option.some.injEq] at hh
          subst hh
          subst hdb
          constructor
          · unfold create_table
            rw [if_neg hns]
            rw [if_pos ?htb]
            case htb =>
              simp [hasTable, List.lookup]
            have hcols1 : tableCols
                { db with dataTables := (tname, ⟨cols, []⟩) :: db.dataTables }
                tname = cols := by
              simp [tableCols, List.lookup]
            rw [hcols1]
          · intro habs
            rw [habs] at hht
            simp at hht

/-- Witness for C8: creating a two-column table from an empty database and
resolving again yields the same handle and leaves the database as the
first call made it. -/
theorem create_table_idempotent_witness :
    create_table false specs2 "t" (create_table false specs2 "t" dbEmpty).1
      = ((create_table false specs2 "t" dbEmpty).1,
        .ok (some ⟨"t", [⟨"id", some ColType.integer⟩,
          ⟨"name", some (ColType.string 64)⟩]⟩))
    ∧ (hasTable dbEmpty "t" = true →
        (create_table false specs2 "t" dbEmpty).1 = dbEmpty
        ∧ (⟨"t", [⟨"id", some ColType.integer⟩,
            ⟨"name", some (ColType.string 64)⟩]⟩ : TableHandle)
          = ⟨"t", tableCols dbEmpty "t"⟩) :=
  create_table_idempotent false specs2 "t" dbEmpty
    (create_table false specs2 "t" dbEmpty).1
    ⟨"t", [⟨"id", some ColType.integer⟩, ⟨"name", some (ColType.string 64)⟩]⟩
    (by decide)

/-- A database whose marker table pre-exists and holds one record for a
different run identity `b`. -/
def c2_db : DB := ⟨[], true, [⟨"b", "tb", some 0⟩]⟩

/-- C2 (code evaluated at the failing input): with an unrelated marker
record `b` present, the first `touch("a")` inserts the record for `a`, but
the second `touch("a")` aborts with a primary-key integrity error and
changes nothing — because its UPDATE carries no WHERE clause and rewrites
every row's `update_id` to `a`, colliding with `b`'s rewritten row —
instead of refreshing `a`'s `insertedAt` and leaving the row count
alone. -/
theorem touch_twice_integrity_error :
    (touch 1 "a" "ta" false false c2_db).2 = none
    ∧ ((touch 1 "a" "ta" false false c2_db).1).marker
        = [⟨"b", "tb", some 0⟩, ⟨"a", "ta", none⟩]
    ∧ (touch 2 "a" "ta" false false (touch 1 "a" "ta" false false c2_db).1).2
        = some Err.integrityErr
    ∧ (touch 2 "a" "ta" false false (touch 1 "a" "ta" false false c2_db).1).1
        = (touch 1 "a" "ta" false false c2_db).1 := by
  decide

/-- A database whose marker table pre-exists with records for two distinct
run identities `x` and `y`. -/
def c10_db : DB := ⟨[], true, [⟨"x", "tx", some 1⟩, ⟨"y", "ty", some 2⟩]⟩

/-- C10 (code evaluated at the failing input): when `touch("x")` runs
while `x`'s marker record exists alongside `y`'s, the UPDATE statement it
issues — having no WHERE clause — produces result rows in which `y`'s
record has been rewritten to `x`'s identity, and the statement aborts with
a primary-key integrity error; the update is not confined to the row whose
`update_id` matches. -/
theorem touch_update_targets_all_rows :
    updateStmtRows 5 "x" "tx" c10_db.marker
      = [⟨"x", "tx", some 5⟩, ⟨"x", "tx", some 5⟩]
    ∧ (touch 5 "x" "tx" false false c10_db).2 = some Err.integrityErr := by
  decide

/-- A database whose marker table pre-exists (created by an earlier
process or run) and holds no records. -/
def c9_db : DB := ⟨[], true, []⟩

/-- C9 (code evaluated at the failing input): touching an absent
`updateId` at time 7 while the marker table pre-exists returns normally
but stores the new record with `insertedAt` NULL — the INSERT supplies no
`inserted` value and the reflected table carries no client-side default —
not with the current time of the insert. -/
theorem touch_insert_null_timestamp :
    (touch 7 "a" "ta" false false c9_db).2 = none
    ∧ ((touch 7 "a" "ta" false false c9_db).1).marker = [⟨"a", "ta", none⟩] := by
  decide

/-- C6 counterexample: a produced row with 3 fields loaded into a table
with 2 columns does not fail at all — the run completes without error —
and the stored row is the silent truncation of the input to the first two
fields, contradicting "the load fails with RowShapeMismatch; rows are
never silently truncated". -/
theorem run_no_shape_check :
    (run false specs2 "t" 5000 [["a", "b", "c"]] "u" 0 (fun _ => false)
      false false false dbEmpty).2 = none
    ∧ tableRows (run false specs2 "t" 5000 [["a", "b", "c"]] "u" 0
        (fun _ => false) false false false dbEmpty).1 "t"
      = [[("id", "a"), ("name", "b")]] := by
  decide

/-- Auxiliary: mapping `zip` truncates to the shorter list, on both
sides. -/
theorem zip_take_fst_snd (l1 l2 : List String) :
    ((l1.zip l2).map Prod.fst = l1.take l2.length)
    ∧ ((l1.zip l2).map Prod.snd = l2.take l1.length) := by
  induction l1 generalizing l2 with
  | nil => simp
  | cons a l1 ih =>
    cases l2 with
    | nil => simp
    | cons b l2 =>
      simp [List.zip_cons_cons, (ih l2).1, (ih l2).2]

/-- C6 amended: the loader never checks row shape. The positional mapping
pairs the row's values with the table's column names and truncates to the
shorter of the two (extra fields are silently dropped; a short row leaves
trailing columns unmapped), and a run over a row of any length — matching
the column count or not — completes without error and stores exactly that
truncated mapping. -/
theorem mapRow_truncates (keys row : List String) :
    ((mapRow keys row).map Prod.fst = keys.take row.length)
    ∧ ((mapRow keys row).map Prod.snd = row.take keys.length)
    ∧ ((run false specs2 "t" 5000 [row] "u" 0 (fun _ => false) false false
        false dbEmpty).2 = none
      ∧ tableRows (run false specs2 "t" 5000 [row] "u" 0 (fun _ => false)
          false false false dbEmpty).1 "t" = [mapRow ["id", "name"] row]) :=
  ⟨(zip_take_fst_snd keys row).1, (zip_take_fst_snd keys row).2, rfl, rfl⟩

/-- The column spec `("id", None)` of the malformed-schema test: a
two-element tuple whose second element is `None` instead of a kwargs
dict. -/
def c7_spec : ColSpec := [SpecItem.str "id", SpecItem.pynone]

/-- C7 counterexample: with `reflect = false` and column specs
`[("id", None)]`, `create_table` does NOT fail with the configuration
error — the two-element tuple passes the `len(c) == 2` guard, the
`TypeError` raised while constructing the column is caught and only
logged, and the call returns normally with no table created and no handle
bound. -/
theorem create_table_idnone_no_error :
    create_table false [c7_spec] "t" dbEmpty = (dbEmpty, .ok none)
    ∧ hasTable (create_table false [c7_spec] "t" dbEmpty).1 "t" = false := by
  decide

/-- C7 amended: with `reflect = false`, `create_table` raises the
configuration error (`NotImplementedError`) exactly when the column specs
are empty or some spec is not a two-element tuple, creating no table; a
two-element spec that merely omits a usable type, such as `("id", None)`,
passes that guard, and the subsequent column-construction failure is
swallowed, returning normally with no table created. -/
theorem create_table_config_check (specs : List ColSpec) (db : DB)
    (tname : String) :
    ((specs = [] ∨ ∃ c ∈ specs, c.length ≠ 2) →
      create_table false specs tname db = (db, .error .notImplemented))
    ∧ (hasTable db tname = false →
      create_table false [c7_spec] tname db = (db, .ok none)) := by
  constructor
  · intro hbad
    have hns : needs_setup false specs = true := by
      rcases hbad with rfl | ⟨c, hc, hlen⟩
      · simp [needs_setup]
      · simp only [needs_setup, if_neg (by simp : ¬(false = true)),
          Bool.or_eq_true, List.any_eq_true]
        exact Or.inr ⟨c, hc, by simpa using hlen⟩
    unfold create_table
    rw [if_pos hns]
  · intro hn
    unfold create_table
    rw [if_neg (by decide), if_neg (by simp [hn])]
    rfl

/-- Witness for C7's amended theorem: empty specs are rejected with the
configuration error, and the `("id", None)` spec returns normally with no
table created, both on the empty database. -/
theorem create_table_config_check_witness :
    create_table false [] "t" dbEmpty = (dbEmpty, .error .notImplemented)
    ∧ create_table false [c7_spec] "t" dbEmpty = (dbEmpty, .ok none) :=
  ⟨(create_table_config_check [] dbEmpty "t").1 (Or.inl rfl),
   (create_table_config_check [] dbEmpty "t").2 (by decide)⟩

end Sqla
